import Mathlib

/-!
Shallow embedding of `examples/1_basic_plot_making/4_materials_and_glass_colors.ipynb`.

The notebook is a straight-line Python script: it builds a rational grid of
points, draws one random vector `rnd` of 216 uniform samples, splits the grid
into four masked subsets, and then issues a fixed sequence of calls on a single
`TkOptiX` renderer object.  The embedding below models

* the grid `xyz` and the four masked subsets as computations over `ℚ`,
  parameterised by the random vector `rnd : Fin 216 → ℚ`;
* each renderer call as a record of method name and named arguments;
* the whole notebook run as a list of events `script rnd` (object construction,
  renderer calls, and the one `print` of the glass material);
* exception propagation of the straight-line script as `runFrom`.
-/

set_option maxHeartbeats 2000000
set_option maxRecDepth 8000

namespace MaterialsGlassColors

/-- `n = 6` from the notebook. -/
def n : ℕ := 6

/-- `a = 8` from the notebook. -/
def a : ℚ := 8

/-- `s = a / n` from the notebook (`= 4/3`). -/
def s : ℚ := a / (n : ℚ)

/-- Row `k` of `np.mgrid[0:a:s, 0:a:s, 0:a:s].reshape(3,-1).T`.
`np.mgrid[0:8:4/3]` yields the 6 samples `0, s, 2s, 3s, 4s, 5s` per axis, so the
grid has `6^3 = 216` rows; row `k = 36*i + 6*j + l` is `(i*s, j*s, l*s)`. -/
def xyzRow (k : Fin 216) : ℚ × ℚ × ℚ :=
  (s * (((k : ℕ) / 36 : ℕ) : ℚ),
   s * ((((k : ℕ) / 6) % 6 : ℕ) : ℚ),
   s * (((k : ℕ) % 6 : ℕ) : ℚ))

/-- The full grid `xyz` as the list of its rows. -/
def xyzRows : List (ℚ × ℚ × ℚ) := (List.finRange 216).map xyzRow

/-- The mask `(xyz[:,0] == 0) | (xyz[:,1] == 0) | (xyz[:,2] == 0)`. -/
def isBoundary (p : ℚ × ℚ × ℚ) : Bool :=
  decide (p.1 = 0) || decide (p.2.1 = 0) || decide (p.2.2 = 0)

/-- The mask `(xyz[:,0] > 0) & (xyz[:,1] > 0) & (xyz[:,2] > 0)`. -/
def isInterior (p : ℚ × ℚ × ℚ) : Bool :=
  decide (0 < p.1) && decide (0 < p.2.1) && decide (0 < p.2.2)

/-- Row indices selected by `(boundary mask) & (rnd < 0.7)`. -/
def idx_c_diffuse (rnd : Fin 216 → ℚ) : List (Fin 216) :=
  (List.finRange 216).filter (fun k => isBoundary (xyzRow k) && decide (rnd k < 7/10))

/-- Row indices selected by `(boundary mask) & (rnd >= 0.7)`. -/
def idx_c_mirror (rnd : Fin 216 → ℚ) : List (Fin 216) :=
  (List.finRange 216).filter (fun k => isBoundary (xyzRow k) && decide (7/10 ≤ rnd k))

/-- Row indices selected by `(interior mask) & (rnd < 0.4)`. -/
def idx_p_glass (rnd : Fin 216 → ℚ) : List (Fin 216) :=
  (List.finRange 216).filter (fun k => isInterior (xyzRow k) && decide (rnd k < 2/5))

/-- Row indices selected by `(interior mask) & (rnd > 0.9)`. -/
def idx_p_plastic (rnd : Fin 216 → ℚ) : List (Fin 216) :=
  (List.finRange 216).filter (fun k => isInterior (xyzRow k) && decide (9/10 < rnd k))

/-- `xyz_c_diffuse = xyz[((xyz[:,0]==0)|(xyz[:,1]==0)|(xyz[:,2]==0)) & (rnd < 0.7)]`. -/
def xyz_c_diffuse (rnd : Fin 216 → ℚ) : List (ℚ × ℚ × ℚ) := (idx_c_diffuse rnd).map xyzRow

/-- `xyz_c_mirror = xyz[((xyz[:,0]==0)|(xyz[:,1]==0)|(xyz[:,2]==0)) & (rnd >= 0.7)]`. -/
def xyz_c_mirror (rnd : Fin 216 → ℚ) : List (ℚ × ℚ × ℚ) := (idx_c_mirror rnd).map xyzRow

/-- `xyz_p_glass = xyz[(xyz[:,0]>0) & (xyz[:,1]>0) & (xyz[:,2]>0) & (rnd < 0.4)]`. -/
def xyz_p_glass (rnd : Fin 216 → ℚ) : List (ℚ × ℚ × ℚ) := (idx_p_glass rnd).map xyzRow

/-- `xyz_p_plastic = xyz[(xyz[:,0]>0) & (xyz[:,1]>0) & (xyz[:,2]>0) & (rnd > 0.9)]`. -/
def xyz_p_plastic (rnd : Fin 216 → ℚ) : List (ℚ × ℚ × ℚ) := (idx_p_plastic rnd).map xyzRow

/-- `p + np.array([0.5*s, 0.5*s, 0.5*s])` applied to one row. -/
def shift (p : ℚ × ℚ × ℚ) : ℚ × ℚ × ℚ :=
  (p.1 + (1/2) * s, p.2.1 + (1/2) * s, p.2.2 + (1/2) * s)

/-- Positions passed for `"particles_g"`: `xyz_p_glass + [0.5*s, 0.5*s, 0.5*s]`. -/
def particles_g_pos (rnd : Fin 216 → ℚ) : List (ℚ × ℚ × ℚ) := (xyz_p_glass rnd).map shift

/-- Positions passed for `"particles_p"`: `xyz_p_plastic + [0.5*s, 0.5*s, 0.5*s]`. -/
def particles_p_pos (rnd : Fin 216 → ℚ) : List (ℚ × ℚ × ℚ) := (xyz_p_plastic rnd).map shift

/-- Modelled from the spec: the materials `m_clear_glass`, `m_plastic` and
`m_mirror` come from the external `plotoptix.materials` module, whose source is
not part of this repository.  Only the field the notebook reads and mutates is
represented: the printed output of `print(m_clear_glass)` shows
`refraction_index = [1.4, 1.4, 1.4]`, and the script later assigns
`[1.4, 1.44, 1.5]` to it; `m_plastic` and `m_mirror` stay opaque. -/
inductive Material where
  | clear_glass (refraction_index : List ℚ)
  | plastic
  | mirror
deriving DecidableEq

/-- The imported `m_clear_glass` value (refraction index `[1.4, 1.4, 1.4]`). -/
def m_clear_glass : Material := .clear_glass [7/5, 7/5, 7/5]

/-- `m_clear_glass` after `m_clear_glass["VarFloat3"]["refraction_index"] = [1.4, 1.44, 1.5]`. -/
def m_clear_glass_dispersive : Material := .clear_glass [7/5, 36/25, 3/2]

/-- The imported `m_plastic` value (opaque). -/
def m_plastic : Material := .plastic

/-- The imported `m_mirror` value (opaque). -/
def m_mirror : Material := .mirror

/-- Method names of the renderer calls the notebook issues. -/
inductive CallName where
  | set_param
  | set_uint
  | setup_material
  | set_data
  | setup_camera
  | set_background
  | set_ambient
  | set_float
  | add_postproc
  | setup_light
  | start
  | update_material
  | update_data
  | update_light
  | close
deriving DecidableEq

/-- Argument values of the notebook's renderer calls.  `cmapColors sc vs cm`
models `sc * map_to_colors(vs, cm)` opaquely: `map_to_colors` is from the
external `plotoptix.utils` module, whose source is not part of this
repository. -/
inductive Arg where
  | str (v : String)
  | num (q : ℚ)
  | vec (v : ℚ × ℚ × ℚ)
  | rows (l : List (ℚ × ℚ × ℚ))
  | nums (l : List ℚ)
  | cmapColors (scale : ℚ) (vals : List ℚ) (cmap : String)
  | material (m : Material)
  | flag (b : Bool)
deriving DecidableEq

/-- One renderer call: method plus named arguments (positional arguments are
recorded under the API parameter name they bind to). -/
structure RCall where
  method : CallName
  args : List (String × Arg)
deriving DecidableEq

/-- One event of the notebook run: construction of a renderer object, a call on
a renderer object (identified by number), or the `print(m_clear_glass)`. -/
inductive Event where
  | mkObj (objId : ℕ) (start_now : Bool)
  | callOn (objId : ℕ) (c : RCall)
  | printMat (m : Material)
deriving DecidableEq

/-- `optix.set_data("particles_g", pos=xyz_p_glass + 0.5*s, r=0.4*s, geom="ParticleSet", mat="glass", c=10)`. -/
def particlesGCall (rnd : Fin 216 → ℚ) : RCall :=
  ⟨.set_data, [("name", .str "particles_g"), ("pos", .rows (particles_g_pos rnd)),
               ("r", .num ((2/5) * s)), ("geom", .str "ParticleSet"),
               ("mat", .str "glass"), ("c", .num 10)]⟩

/-- `optix.set_data("particles_p", pos=xyz_p_plastic + 0.5*s, r=0.4*s, geom="ParticleSet", mat="plastic", c=0.95)`. -/
def particlesPCall (rnd : Fin 216 → ℚ) : RCall :=
  ⟨.set_data, [("name", .str "particles_p"), ("pos", .rows (particles_p_pos rnd)),
               ("r", .num ((2/5) * s)), ("geom", .str "ParticleSet"),
               ("mat", .str "plastic"), ("c", .num (19/20))]⟩

/-- `optix.set_data("cubes_d", pos=xyz_c_diffuse, u=.., v=.., w=.., geom="Parallelepipeds", mat="diffuse", c=0.95)`. -/
def cubesDCall (rnd : Fin 216 → ℚ) : RCall :=
  ⟨.set_data, [("name", .str "cubes_d"), ("pos", .rows (xyz_c_diffuse rnd)),
               ("u", .vec ((9/10) * s, 0, 0)), ("v", .vec (0, (9/10) * s, 0)),
               ("w", .vec (0, 0, (9/10) * s)), ("geom", .str "Parallelepipeds"),
               ("mat", .str "diffuse"), ("c", .num (19/20))]⟩

/-- `optix.set_data("cubes_m", pos=xyz_c_mirror, u=.., v=.., w=.., geom="Parallelepipeds", mat="mirror")`. -/
def cubesMCall (rnd : Fin 216 → ℚ) : RCall :=
  ⟨.set_data, [("name", .str "cubes_m"), ("pos", .rows (xyz_c_mirror rnd)),
               ("u", .vec ((9/10) * s, 0, 0)), ("v", .vec (0, (9/10) * s, 0)),
               ("w", .vec (0, 0, (9/10) * s)), ("geom", .str "Parallelepipeds"),
               ("mat", .str "mirror")]⟩

/-- The whole notebook run, in source order, as a list of events.  The single
renderer object is object `0`, created by `TkOptiX(start_now=False)`. -/
def script (rnd : Fin 216 → ℚ) : List Event :=
  [.mkObj 0 false,
   .callOn 0 ⟨.set_param, [("min_accumulation_step", .num 4),
                           ("max_accumulation_frames", .num 500),
                           ("light_shading", .str "Hard")]⟩,
   .callOn 0 ⟨.set_uint, [("name", .str "path_seg_range"),
                          ("min", .num 15), ("max", .num 30)]⟩,
   .callOn 0 ⟨.setup_material, [("name", .str "glass"), ("material", .material m_clear_glass)]⟩,
   .callOn 0 ⟨.setup_material, [("name", .str "plastic"), ("material", .material m_plastic)]⟩,
   .callOn 0 ⟨.setup_material, [("name", .str "mirror"), ("material", .material m_mirror)]⟩,
   .callOn 0 (particlesGCall rnd),
   .callOn 0 (particlesPCall rnd),
   .callOn 0 (cubesDCall rnd),
   .callOn 0 (cubesMCall rnd),
   .callOn 0 ⟨.setup_camera, [("name", .str "cam1"), ("eye", .vec (20, 10, 10)),
                              ("target", .vec ((1/2) * a, (2/5) * a, (1/2) * a)),
                              ("fov", .num 35)]⟩,
   .callOn 0 ⟨.set_background, [("color", .num 0)]⟩,
   .callOn 0 ⟨.set_ambient, [("color", .num 0)]⟩,
   .callOn 0 ⟨.set_float, [("name", .str "tonemap_exposure"), ("value", .num (1/2))]⟩,
   .callOn 0 ⟨.set_float, [("name", .str "tonemap_gamma"), ("value", .num (11/5))]⟩,
   .callOn 0 ⟨.add_postproc, [("stage", .str "Gamma")]⟩,
   .callOn 0 ⟨.setup_light, [("name", .str "light1"), ("pos", .vec (5, 20, 5)),
                             ("color", .vec (10 * 1, 10 * (97/100), 10 * (7/10))),
                             ("radius", .num 4)]⟩,
   .callOn 0 ⟨.setup_light, [("name", .str "light2"), ("pos", .vec (7, 7, 20)),
                             ("color", .vec (15 * (7/10), 15 * (17/20), 15 * 1)),
                             ("radius", .num 3)]⟩,
   .callOn 0 ⟨.setup_light, [("name", .str "light3"), ("pos", .vec (15, 2, 2)),
                             ("color", .num 15), ("radius", .num 1)]⟩,
   .callOn 0 ⟨.start, []⟩,
   .printMat m_clear_glass,
   .callOn 0 ⟨.update_material, [("name", .str "glass"),
                                 ("material", .material m_clear_glass_dispersive),
                                 ("refresh", .flag true)]⟩,
   .callOn 0 ⟨.update_data, [("name", .str "particles_g"),
                             ("c", .nums ((xyz_p_glass rnd).map (fun p => (1/2) * p.2.1)))]⟩,
   .callOn 0 ⟨.update_data, [("name", .str "particles_g"),
                             ("c", .cmapColors 10 ((xyz_p_glass rnd).map (fun p => p.2.1)) "jet")]⟩,
   .callOn 0 ⟨.update_light, [("name", .str "light1"), ("color", .vec (9/10, 7/10, 0)),
                              ("radius", .num 7)]⟩,
   .callOn 0 ⟨.update_light, [("name", .str "light2"), ("pos", .vec (15, 15, 15)),
                              ("color", .vec (10 * (1/5), 10 * (1/2), 10 * 1)),
                              ("radius", .num 3)]⟩,
   .callOn 0 ⟨.set_uint, [("name", .str "path_seg_range"),
                          ("min", .num 2), ("max", .num 4), ("refresh", .flag true)]⟩,
   .callOn 0 ⟨.close, []⟩]

/-- The renderer calls of an event list, in order. -/
def rendererCalls (es : List Event) : List RCall :=
  es.filterMap (fun e => match e with | .callOn _ c => some c | _ => none)

/-- The sequence of method names the script invokes on the renderer. -/
def callMethods (es : List Event) : List CallName :=
  (rendererCalls es).map RCall.method

/-- The constructions of renderer objects in an event list: `(objId, start_now)`. -/
def constructions (es : List Event) : List (ℕ × Bool) :=
  es.filterMap (fun e => match e with | .mkObj i b => some (i, b) | _ => none)

/-- The object each renderer call targets, in order. -/
def callTargets (es : List Event) : List ℕ :=
  es.filterMap (fun e => match e with | .callOn i _ => some i | _ => none)

/-- Look up a named argument of a call. -/
def argOf (c : RCall) (key : String) : Option Arg := c.args.lookup key

/-- A call's string argument under `key`, when present. -/
def argStr (c : RCall) (key : String) : Option String :=
  match argOf c key with | some (.str v) => some v | _ => none

/-- A call's numeric argument under `key`, when present. -/
def argNum (c : RCall) (key : String) : Option ℚ :=
  match argOf c key with | some (.num q) => some q | _ => none

/-- A call's point-rows argument under `key`, when present. -/
def argRows (c : RCall) (key : String) : Option (List (ℚ × ℚ × ℚ)) :=
  match argOf c key with | some (.rows l) => some l | _ => none

/-- Whether a call has an argument named `key`. -/
def hasArg (c : RCall) (key : String) : Bool := (argOf c key).isSome

/-- The `set_uint` calls of an event list. -/
def setUintCalls (es : List Event) : List RCall :=
  (rendererCalls es).filter (fun c => decide (c.method = .set_uint))

/-- The `set_data` calls of an event list. -/
def setDataCalls (es : List Event) : List RCall :=
  (rendererCalls es).filter (fun c => decide (c.method = .set_data))

/-- The `setup_light` calls of an event list. -/
def setupLightCalls (es : List Event) : List RCall :=
  (rendererCalls es).filter (fun c => decide (c.method = .setup_light))

/-- Python exception semantics of the straight-line script: events run in
order; `fail i` says whether the `i`-th renderer call raises.  The result is
the events that actually happened and `some i` when call `i` raised (the
script has no try/except, so the first raising call ends the run), `none` when
the run completed. -/
def runFrom (fail : ℕ → Bool) : List Event → ℕ → List Event × Option ℕ
  | [], _ => ([], none)
  | Event.callOn oid c :: es, i =>
      if fail i then ([Event.callOn oid c], some i)
      else
        let r := runFrom fail es (i + 1)
        (Event.callOn oid c :: r.1, r.2)
  | Event.mkObj oid b :: es, i =>
      let r := runFrom fail es i
      (Event.mkObj oid b :: r.1, r.2)
  | Event.printMat m :: es, i =>
      let r := runFrom fail es i
      (Event.printMat m :: r.1, r.2)

/-- Run the whole notebook under the failure oracle `fail`. -/
def runScript (rnd : Fin 216 → ℚ) (fail : ℕ → Bool) : List Event × Option ℕ :=
  runFrom fail (script rnd) 0

/-- Number of renderer calls in an event list. -/
def numCalls (es : List Event) : ℕ := (rendererCalls es).length

/-- The renderer methods named in the spec's system overview
(`set_param`, `setup_material`, `set_data`, `setup_camera`, `setup_light`,
`add_postproc`, `start`, `update_*`, `close`). -/
def specListedMethods : List CallName :=
  [.set_param, .setup_material, .set_data, .setup_camera, .setup_light,
   .add_postproc, .start, .update_material, .update_data, .update_light, .close]

/-- All renderer methods the notebook actually invokes: the spec-overview list
extended with `set_uint`, `set_background`, `set_ambient` and `set_float`. -/
def observedMethods : List CallName :=
  [.set_param, .set_uint, .setup_material, .set_data, .setup_camera,
   .set_background, .set_ambient, .set_float, .add_postproc, .setup_light,
   .start, .update_material, .update_data, .update_light, .close]

/-- The full method sequence of the notebook's renderer calls, in order. -/
def scriptMethodList : List CallName :=
  [.set_param, .set_uint, .setup_material, .setup_material, .setup_material,
   .set_data, .set_data, .set_data, .set_data, .setup_camera, .set_background,
   .set_ambient, .set_float, .set_float, .add_postproc, .setup_light,
   .setup_light, .setup_light, .start, .update_material, .update_data,
   .update_data, .update_light, .update_light, .set_uint, .close]

/-- The configuration methods of the scene-setup phase. -/
def configMethods : List CallName :=
  [.set_param, .set_uint, .setup_material, .set_data, .setup_camera,
   .set_background, .set_ambient, .set_float, .add_postproc, .setup_light]

/-- Whether a method is one of the `update_*` methods. -/
def isUpdateName (m : CallName) : Bool :=
  decide (m = .update_material) || decide (m = .update_data) || decide (m = .update_light)

/-- Position of the `start` call in a method sequence. -/
def startIdx (ms : List CallName) : ℕ := ms.findIdx (fun m => decide (m = .start))

/-- Whether a call carries `min` and `max` numeric arguments that are unsigned
integers with `min ≤ max`. -/
def minMaxOK (c : RCall) : Bool :=
  match argNum c "min", argNum c "max" with
  | some q1, some q2 =>
      decide (q1.den = 1) && decide (0 ≤ q1) && decide (q2.den = 1) &&
      decide (0 ≤ q2) && decide (q1 ≤ q2)
  | _, _ => false

/-- The two `set_uint` calls of the notebook, as literal values. -/
def setUintLit : List RCall :=
  [⟨.set_uint, [("name", .str "path_seg_range"), ("min", .num 15), ("max", .num 30)]⟩,
   ⟨.set_uint, [("name", .str "path_seg_range"), ("min", .num 2), ("max", .num 4),
                ("refresh", .flag true)]⟩]

/-- The three `setup_light` calls of the notebook, as literal values. -/
def setupLightLit : List RCall :=
  [⟨.setup_light, [("name", .str "light1"), ("pos", .vec (5, 20, 5)),
                   ("color", .vec (10 * 1, 10 * (97/100), 10 * (7/10))),
                   ("radius", .num 4)]⟩,
   ⟨.setup_light, [("name", .str "light2"), ("pos", .vec (7, 7, 20)),
                   ("color", .vec (15 * (7/10), 15 * (17/20), 15 * 1)),
                   ("radius", .num 3)]⟩,
   ⟨.setup_light, [("name", .str "light3"), ("pos", .vec (15, 2, 2)),
                   ("color", .num 15), ("radius", .num 1)]⟩]

/-- The six coordinate values of each grid axis: `{0, s, 2s, 3s, 4s, 5s}`. -/
def axisValues : List ℚ := [0, s, 2 * s, 3 * s, 4 * s, 5 * s]

/-- A concrete random vector: all samples `0.5`. -/
def rnd0 : Fin 216 → ℚ := fun _ => 1/2

/-- A concrete random vector: all samples `0.2` (every interior point becomes glass). -/
def rnd1 : Fin 216 → ℚ := fun _ => 1/5

/-- A concrete failure oracle: the renderer call with index 3 raises. -/
def failAt3 : ℕ → Bool := fun i => decide (i = 3)

/-! ## Helper lemmas -/

theorem s_eq : s = 4/3 := by norm_num [s, a, n]

theorem s_pos : (0 : ℚ) < s := by rw [s_eq]; norm_num

theorem s_mul_nat_inj {i j : ℕ} (h : s * (i : ℚ) = s * (j : ℚ)) : i = j := by
  have h2 := mul_left_cancel₀ (ne_of_gt s_pos) h
  exact_mod_cast h2

theorem xyzRow_inj (k1 k2 : Fin 216) (h : xyzRow k1 = xyzRow k2) : k1 = k2 := by
  unfold xyzRow at h
  rw [Prod.ext_iff] at h
  obtain ⟨h1, h23⟩ := h
  rw [Prod.ext_iff] at h23
  obtain ⟨h2, h3⟩ := h23
  have e1 := s_mul_nat_inj h1
  have e2 := s_mul_nat_inj h2
  have e3 := s_mul_nat_inj h3
  have hk1 := k1.isLt
  have hk2 := k2.isLt
  exact Fin.ext (by omega)

theorem coord_ne_shift (i j : ℕ) : s * (i : ℚ) ≠ s * (j : ℚ) + (1/2) * s := by
  intro h
  rw [s_eq] at h
  have h2 : (4 : ℚ) * i = 4 * j + 2 := by linarith
  have h3 : 4 * i = 4 * j + 2 := by exact_mod_cast h2
  omega

theorem mem_filter_finRange (p : Fin 216 → Bool) (k : Fin 216) :
    k ∈ (List.finRange 216).filter p ↔ p k = true := by
  rw [List.mem_filter]
  simp [List.mem_finRange]

theorem mem_map_xyzRow (l : List (Fin 216)) (k : Fin 216) :
    xyzRow k ∈ l.map xyzRow ↔ k ∈ l := by
  constructor
  · intro h
    obtain ⟨j, hj, he⟩ := List.mem_map.1 h
    exact (xyzRow_inj j k he) ▸ hj
  · exact List.mem_map_of_mem xyzRow

theorem mem_xyz_c_diffuse (rnd : Fin 216 → ℚ) (k : Fin 216) :
    xyzRow k ∈ xyz_c_diffuse rnd ↔ (isBoundary (xyzRow k) = true ∧ rnd k < 7/10) := by
  unfold xyz_c_diffuse idx_c_diffuse
  rw [mem_map_xyzRow, mem_filter_finRange]
  simp [Bool.and_eq_true]

theorem mem_xyz_c_mirror (rnd : Fin 216 → ℚ) (k : Fin 216) :
    xyzRow k ∈ xyz_c_mirror rnd ↔ (isBoundary (xyzRow k) = true ∧ 7/10 ≤ rnd k) := by
  unfold xyz_c_mirror idx_c_mirror
  rw [mem_map_xyzRow, mem_filter_finRange]
  simp [Bool.and_eq_true]

theorem mem_xyz_p_glass (rnd : Fin 216 → ℚ) (k : Fin 216) :
    xyzRow k ∈ xyz_p_glass rnd ↔ (isInterior (xyzRow k) = true ∧ rnd k < 2/5) := by
  unfold xyz_p_glass idx_p_glass
  rw [mem_map_xyzRow, mem_filter_finRange]
  simp [Bool.and_eq_true]

theorem mem_xyz_p_plastic (rnd : Fin 216 → ℚ) (k : Fin 216) :
    xyzRow k ∈ xyz_p_plastic rnd ↔ (isInterior (xyzRow k) = true ∧ 9/10 < rnd k) := by
  unfold xyz_p_plastic idx_p_plastic
  rw [mem_map_xyzRow, mem_filter_finRange]
  simp [Bool.and_eq_true]

theorem interior_not_boundary (p : ℚ × ℚ × ℚ) (h : isInterior p = true) :
    isBoundary p = false := by
  simp only [isInterior, Bool.and_eq_true, decide_eq_true_eq] at h
  simp only [isBoundary, Bool.or_eq_false_iff, decide_eq_false_iff_not]
  exact ⟨⟨h.1.1.ne', h.1.2.ne'⟩, h.2.ne'⟩

theorem coord_lower (i : ℕ) (h : 0 < s * (i : ℚ)) : s ≤ s * (i : ℚ) := by
  have hi : (1 : ℚ) ≤ (i : ℚ) := by
    by_contra hlt
    push_neg at hlt
    have hi0 : i = 0 := by exact_mod_cast (by exact_mod_cast Nat.lt_one_iff.mp (by exact_mod_cast hlt) : i = 0)
    rw [hi0] at h
    simp at h
  exact le_mul_of_one_le_right s_pos.le hi

theorem callMethods_script (rnd : Fin 216 → ℚ) :
    callMethods (script rnd) = scriptMethodList := rfl

theorem setUintCalls_script (rnd : Fin 216 → ℚ) :
    setUintCalls (script rnd) = setUintLit := rfl

theorem setupLightCalls_script (rnd : Fin 216 → ℚ) :
    setupLightCalls (script rnd) = setupLightLit := rfl

theorem setDataCalls_script (rnd : Fin 216 → ℚ) :
    setDataCalls (script rnd) =
      [particlesGCall rnd, particlesPCall rnd, cubesDCall rnd, cubesMCall rnd] := rfl

theorem runFrom_front (fail : ℕ → Bool) :
    ∀ (es : List Event) (i : ℕ), (runFrom fail es i).1 <+: es := by
  intro es
  induction es with
  | nil => intro i; simp [runFrom]
  | cons e es ih =>
    intro i
    cases e with
    | callOn oid c =>
      by_cases hf : fail i = true
      · simp [runFrom, hf]
      · rw [Bool.not_eq_true] at hf
        simpa [runFrom, hf, List.cons_prefix_cons] using ih (i + 1)
    | mkObj oid b => simpa [runFrom, List.cons_prefix_cons] using ih i
    | printMat m => simpa [runFrom, List.cons_prefix_cons] using ih i

theorem runFrom_none (fail : ℕ → Bool) :
    ∀ (es : List Event) (i : ℕ),
      (runFrom fail es i).2 = none → (runFrom fail es i).1 = es := by
  intro es
  induction es with
  | nil => intro i _; simp [runFrom]
  | cons e es ih =>
    intro i
    cases e with
    | callOn oid c =>
      by_cases hf : fail i = true
      · simp [runFrom, hf]
      · rw [Bool.not_eq_true] at hf
        intro h
        simp only [runFrom, hf] at h ⊢
        simp only [Bool.false_eq_true, if_false] at h ⊢
        exact congrArg _ (ih (i + 1) h)
    | mkObj oid b =>
      intro h
      simp only [runFrom] at h ⊢
      exact congrArg _ (ih i h)
    | printMat m =>
      intro h
      simp only [runFrom] at h ⊢
      exact congrArg _ (ih i h)

theorem runFrom_some (fail : ℕ → Bool) :
    ∀ (es : List Event) (i j : ℕ),
      (runFrom fail es i).2 = some j →
      fail j = true ∧ i ≤ j ∧ numCalls (runFrom fail es i).1 = j + 1 - i := by
  intro es
  induction es with
  | nil => intro i j h; simp [runFrom] at h
  | cons e es ih =>
    intro i j
    cases e with
    | callOn oid c =>
      by_cases hf : fail i = true
      · intro h
        simp only [runFrom, hf, if_true] at h ⊢
        obtain rfl : i = j := by simpa using h
        simp [numCalls, rendererCalls, hf]
      · rw [Bool.not_eq_true] at hf
        intro h
        simp only [runFrom, hf, Bool.false_eq_true, if_false] at h ⊢
        obtain ⟨h1, h2, h3⟩ := ih (i + 1) j h
        refine ⟨h1, by omega, ?_⟩
        simp only [numCalls, rendererCalls, List.filterMap_cons] at h3 ⊢
        simp only [List.length_cons]
        omega
    | mkObj oid b =>
      intro h
      simp only [runFrom] at h ⊢
      obtain ⟨h1, h2, h3⟩ := ih i j h
      refine ⟨h1, h2, ?_⟩
      simpa [numCalls, rendererCalls, List.filterMap_cons] using h3
    | printMat m =>
      intro h
      simp only [runFrom] at h ⊢
      obtain ⟨h1, h2, h3⟩ := ih i j h
      refine ⟨h1, h2, ?_⟩
      simpa [numCalls, rendererCalls, List.filterMap_cons] using h3

/-! ## Claims -/

/-- C1, counterexample: it is NOT the case that every renderer call of the
script uses a method from the spec-overview list (`set_param`, `setup_material`,
`set_data`, `setup_camera`, `setup_light`, `add_postproc`, `start`, `update_*`,
`close`): the script also calls `set_uint` (and `set_background`, `set_ambient`,
`set_float`), refuted here on the concrete run with all random samples 0.5. -/
theorem C1_counterexample :
    ¬ (∀ c ∈ rendererCalls (script rnd0), c.method ∈ specListedMethods) := by
  decide

/-- C1, amended: every renderer call of the script, on every run, uses one of
the spec-overview methods or one of the four additional configuration methods
the script also issues (`set_uint`, `set_background`, `set_ambient`,
`set_float`). -/
theorem C1_all_methods_observed (rnd : Fin 216 → ℚ) :
    ∀ c ∈ rendererCalls (script rnd), c.method ∈ observedMethods := by
  intro c hc
  have hm : c.method ∈ (rendererCalls (script rnd)).map RCall.method :=
    List.mem_map_of_mem RCall.method hc
  rw [show (rendererCalls (script rnd)).map RCall.method = scriptMethodList from rfl] at hm
  exact (by decide : ∀ m ∈ scriptMethodList, m ∈ observedMethods) c.method hm

/-- Witness for C1: the `close` call occurs in the concrete run and its method
is among the observed methods. -/
theorem C1_witness : (⟨CallName.close, []⟩ : RCall).method ∈ observedMethods :=
  C1_all_methods_observed rnd0 ⟨CallName.close, []⟩ (by decide)

/-- C2, counterexample: the stated lifecycle order fails on the concrete run
with all random samples 0.5: not every configuration call (here counting
`set_param`, `set_uint`, `setup_material`, `set_data`, `setup_camera`,
`set_background`, `set_ambient`, `set_float`, `add_postproc`, `setup_light`)
precedes the single `start` call — the second `set_uint("path_seg_range", 2, 4,
refresh=True)` is issued after `start`. -/
theorem C2_counterexample :
    ¬ ((callMethods (script rnd0)).count CallName.start = 1 ∧
       (∀ m ∈ (callMethods (script rnd0)).drop
          (startIdx (callMethods (script rnd0)) + 1), m ∉ configMethods) ∧
       (∀ m ∈ (callMethods (script rnd0)).take
          (startIdx (callMethods (script rnd0))), isUpdateName m = false) ∧
       (callMethods (script rnd0)).getLast? = some CallName.close ∧
       CallName.close ∉ (callMethods (script rnd0)).dropLast) := by
  decide

/-- C2, amended: in every run there is exactly one `start` call; the only
configuration call issued after `start` is one `set_uint` call (the
`set_uint("path_seg_range", 2, 4, refresh=True)` re-tuning), all other
configuration calls precede `start`; no `update_*` call occurs before `start`;
and `close` is the final renderer operation. -/
theorem C2_lifecycle (rnd : Fin 216 → ℚ) :
    (callMethods (script rnd)).count CallName.start = 1 ∧
    ((callMethods (script rnd)).drop (startIdx (callMethods (script rnd)) + 1)).filter
        (fun m => decide (m ∈ configMethods)) = [CallName.set_uint] ∧
    (∀ m ∈ (callMethods (script rnd)).take
        (startIdx (callMethods (script rnd))), isUpdateName m = false) ∧
    (callMethods (script rnd)).getLast? = some CallName.close ∧
    CallName.close ∉ (callMethods (script rnd)).dropLast := by
  rw [callMethods_script]
  decide

/-- Witness for C2: `set_param` occurs before `start` in the concrete run and
is not an update call. -/
theorem C2_witness : isUpdateName CallName.set_param = false :=
  (C2_lifecycle rnd0).2.2.1 CallName.set_param (by decide)

/-- C3: every `set_uint` call of the script names `"path_seg_range"` and passes
unsigned integers with `min ≤ max`; the two calls pass `(15, 30)` and
`(2, 4)`. -/
theorem C3_set_uint_calls (rnd : Fin 216 → ℚ) :
    (setUintCalls (script rnd)).map
        (fun c => (argStr c "name", argNum c "min", argNum c "max")) =
      [(some "path_seg_range", some 15, some 30),
       (some "path_seg_range", some 2, some 4)] ∧
    ∀ c ∈ setUintCalls (script rnd), minMaxOK c = true := by
  rw [setUintCalls_script]
  decide

/-- Witness for C3: the first `set_uint` call occurs in the concrete run and
its `min`/`max` arguments are unsigned integers in order. -/
theorem C3_witness :
    minMaxOK ⟨CallName.set_uint, [("name", Arg.str "path_seg_range"),
                                  ("min", Arg.num 15), ("max", Arg.num 30)]⟩ = true :=
  (C3_set_uint_calls rnd0).2 _ (by decide)

/-- C4: the three `setup_light` calls of the script carry a name, a position, a
color and a radius each, and their names `"light1"`, `"light2"`, `"light3"` are
pairwise distinct. -/
theorem C4_setup_lights (rnd : Fin 216 → ℚ) :
    (setupLightCalls (script rnd)).map (fun c => argStr c "name") =
      [some "light1", some "light2", some "light3"] ∧
    (∀ c ∈ setupLightCalls (script rnd),
      (hasArg c "name" && hasArg c "pos" && hasArg c "color" && hasArg c "radius") = true) ∧
    ((setupLightCalls (script rnd)).map (fun c => argStr c "name")).Nodup := by
  rw [setupLightCalls_script]
  decide

/-- Witness for C4: the `light3` call occurs in the concrete run and carries
all four parameters. -/
theorem C4_witness :
    (hasArg ⟨CallName.setup_light, [("name", Arg.str "light3"),
        ("pos", Arg.vec (15, 2, 2)), ("color", Arg.num 15),
        ("radius", Arg.num 1)]⟩ "name" &&
     hasArg ⟨CallName.setup_light, [("name", Arg.str "light3"),
        ("pos", Arg.vec (15, 2, 2)), ("color", Arg.num 15),
        ("radius", Arg.num 1)]⟩ "pos" &&
     hasArg ⟨CallName.setup_light, [("name", Arg.str "light3"),
        ("pos", Arg.vec (15, 2, 2)), ("color", Arg.num 15),
        ("radius", Arg.num 1)]⟩ "color" &&
     hasArg ⟨CallName.setup_light, [("name", Arg.str "light3"),
        ("pos", Arg.vec (15, 2, 2)), ("color", Arg.num 15),
        ("radius", Arg.num 1)]⟩ "radius") = true :=
  (C4_setup_lights rnd0).2.1 _ (by decide)

/-- C5: the script defines no error handling.  Under any failure oracle, the
events that happen are a prefix of the full script (no compensating action is
ever taken); if no renderer call raises, the full script runs; and if the
`j`-th renderer call raises, the very same error index propagates to the caller
and exactly the first `j + 1` renderer calls were issued. -/
theorem C5_error_propagation (rnd : Fin 216 → ℚ) (fail : ℕ → Bool) :
    (runScript rnd fail).1 <+: script rnd ∧
    ((runScript rnd fail).2 = none → (runScript rnd fail).1 = script rnd) ∧
    (∀ j, (runScript rnd fail).2 = some j →
      fail j = true ∧ numCalls (runScript rnd fail).1 = j + 1) := by
  refine ⟨runFrom_front fail (script rnd) 0, runFrom_none fail (script rnd) 0, ?_⟩
  intro j h
  obtain ⟨h1, _, h3⟩ := runFrom_some fail (script rnd) 0 j h
  exact ⟨h1, by simpa using h3⟩

/-- Witness for C5: on the concrete run where call 3 raises, the error
propagates and exactly 4 renderer calls happened. -/
theorem C5_witness : failAt3 3 = true ∧ numCalls (runScript rnd0 failAt3).1 = 4 := by
  have h := (C5_error_propagation rnd0 failAt3).2.2 3 (by decide)
  exact ⟨h.1, h.2⟩

/-- C6: the script is straight-line and deterministic up to the random vector:
equal random vectors give the identical event sequence, and the sequence of
renderer methods does not depend on the random vector at all (no conditional
selects between call sequences). -/
theorem C6_determinism (r1 r2 : Fin 216 → ℚ) :
    (r1 = r2 → script r1 = script r2) ∧
    callMethods (script r1) = callMethods (script r2) :=
  ⟨fun h => by rw [h], by rw [callMethods_script, callMethods_script]⟩

/-- Witness for C6: the concrete run reproduces itself. -/
theorem C6_witness : script rnd0 = script rnd0 := (C6_determinism rnd0 rnd0).1 rfl

/-- C7: exactly one renderer object is created, by `TkOptiX(start_now=False)`,
and every renderer call of the script targets that object. -/
theorem C7_single_object (rnd : Fin 216 → ℚ) :
    constructions (script rnd) = [(0, false)] ∧
    ∀ i ∈ callTargets (script rnd), i = 0 := by
  refine ⟨rfl, ?_⟩
  intro i hi
  have h : callTargets (script rnd) = List.replicate 26 0 := rfl
  rw [h] at hi
  exact List.eq_of_mem_replicate hi

/-- Witness for C7: object 0 is targeted in the concrete run. -/
theorem C7_witness : (0 : ℕ) ∈ callTargets (script rnd0) ∧ (0 : ℕ) = 0 :=
  ⟨by decide, (C7_single_object rnd0).2 0 (by decide)⟩

/-- C8: the boundary rows are exactly partitioned between the two cube sets:
a boundary row is in `xyz_c_diffuse` iff its random value is below 0.7 and in
`xyz_c_mirror` iff it is at least 0.7; the two sets are disjoint; and their
union is exactly the set of boundary rows. -/
theorem C8_boundary_partition (rnd : Fin 216 → ℚ) (k : Fin 216) :
    (isBoundary (xyzRow k) = true →
      ((xyzRow k ∈ xyz_c_diffuse rnd ↔ rnd k < 7/10) ∧
       (xyzRow k ∈ xyz_c_mirror rnd ↔ 7/10 ≤ rnd k))) ∧
    ¬(xyzRow k ∈ xyz_c_diffuse rnd ∧ xyzRow k ∈ xyz_c_mirror rnd) ∧
    ((xyzRow k ∈ xyz_c_diffuse rnd ∨ xyzRow k ∈ xyz_c_mirror rnd) ↔
      isBoundary (xyzRow k) = true) := by
  refine ⟨?_, ?_, ?_⟩
  · intro hb
    constructor
    · rw [mem_xyz_c_diffuse]; simp [hb]
    · rw [mem_xyz_c_mirror]; simp [hb]
  · rintro ⟨h1, h2⟩
    rw [mem_xyz_c_diffuse] at h1
    rw [mem_xyz_c_mirror] at h2
    linarith [h1.2, h2.2]
  · constructor
    · rintro (h | h)
      · exact ((mem_xyz_c_diffuse rnd k).1 h).1
      · exact ((mem_xyz_c_mirror rnd k).1 h).1
    · intro hb
      rcases lt_or_le (rnd k) (7/10) with hr | hr
      · exact Or.inl ((mem_xyz_c_diffuse rnd k).2 ⟨hb, hr⟩)
      · exact Or.inr ((mem_xyz_c_mirror rnd k).2 ⟨hb, hr⟩)

/-- Witness for C8: the boundary row 0 with random value 0.5 lands in the
diffuse cube set. -/
theorem C8_witness : isBoundary (xyzRow 0) = true ∧ xyzRow 0 ∈ xyz_c_diffuse rnd0 := by
  have hb : isBoundary (xyzRow 0) = true := by norm_num [isBoundary, xyzRow]
  exact ⟨hb, (((C8_boundary_partition rnd0 0).1 hb).1).mpr (by norm_num [rnd0])⟩

/-- C9: an interior row whose random value lies in `[0.4, 0.9]` is in neither
particle set; the glass and plastic conditions are mutually exclusive on every
row; and such a row's position is never among the positions passed to any
`set_data` call. -/
theorem C9_interior_gap (rnd : Fin 216 → ℚ) (k : Fin 216)
    (hi : isInterior (xyzRow k) = true)
    (h1 : 2/5 ≤ rnd k) (h2 : rnd k ≤ 9/10) :
    xyzRow k ∉ xyz_p_glass rnd ∧ xyzRow k ∉ xyz_p_plastic rnd ∧
    (∀ j : Fin 216, ¬(xyzRow j ∈ xyz_p_glass rnd ∧ xyzRow j ∈ xyz_p_plastic rnd)) ∧
    (∀ c ∈ setDataCalls (script rnd), ∀ ps, argRows c "pos" = some ps →
      xyzRow k ∉ ps) := by
  refine ⟨?_, ?_, ?_, ?_⟩
  · intro h
    rw [mem_xyz_p_glass] at h
    linarith [h.2]
  · intro h
    rw [mem_xyz_p_plastic] at h
    linarith [h.2]
  · rintro j ⟨hg, hp⟩
    rw [mem_xyz_p_glass] at hg
    rw [mem_xyz_p_plastic] at hp
    linarith [hg.2, hp.2]
  · intro c hc ps hps
    rw [setDataCalls_script] at hc
    simp only [List.mem_cons, List.not_mem_nil, or_false] at hc
    rcases hc with rfl | rfl | rfl | rfl
    · have hps2 : some (particles_g_pos rnd) = some ps := hps
      obtain rfl := (Option.some.inj hps2).symm
      intro hm
      have hm2 : xyzRow k ∈ ((idx_p_glass rnd).map xyzRow).map shift := hm
      obtain ⟨q, hq, he⟩ := List.mem_map.1 hm2
      obtain ⟨j, _, rfl⟩ := List.mem_map.1 hq
      have hx : s * (((j : ℕ) / 36 : ℕ) : ℚ) + (1/2) * s =
          s * (((k : ℕ) / 36 : ℕ) : ℚ) := congrArg Prod.fst he
      exact coord_ne_shift ((k : ℕ) / 36) ((j : ℕ) / 36) hx.symm
    · have hps2 : some (particles_p_pos rnd) = some ps := hps
      obtain rfl := (Option.some.inj hps2).symm
      intro hm
      have hm2 : xyzRow k ∈ ((idx_p_plastic rnd).map xyzRow).map shift := hm
      obtain ⟨q, hq, he⟩ := List.mem_map.1 hm2
      obtain ⟨j, _, rfl⟩ := List.mem_map.1 hq
      have hx : s * (((j : ℕ) / 36 : ℕ) : ℚ) + (1/2) * s =
          s * (((k : ℕ) / 36 : ℕ) : ℚ) := congrArg Prod.fst he
      exact coord_ne_shift ((k : ℕ) / 36) ((j : ℕ) / 36) hx.symm
    · have hps2 : some (xyz_c_diffuse rnd) = some ps := hps
      obtain rfl := (Option.some.inj hps2).symm
      intro hm
      rw [mem_xyz_c_diffuse] at hm
      have hb := hm.1
      rw [interior_not_boundary _ hi] at hb
      exact Bool.false_ne_true hb
    · have hps2 : some (xyz_c_mirror rnd) = some ps := hps
      obtain rfl := (Option.some.inj hps2).symm
      intro hm
      rw [mem_xyz_c_mirror] at hm
      have hb := hm.1
      rw [interior_not_boundary _ hi] at hb
      exact Bool.false_ne_true hb

/-- Witness for C9: the interior row 43 (= `(s, s, s)`) with random value 0.5
is not in the glass particle set. -/
theorem C9_witness : isInterior (xyzRow 43) = true ∧ xyzRow 43 ∉ xyz_p_glass rnd0 := by
  have hi : isInterior (xyzRow 43) = true := by norm_num [isInterior, xyzRow, s_eq]; decide
  exact ⟨hi, (C9_interior_gap rnd0 43 hi (by norm_num [rnd0]) (by norm_num [rnd0])).1⟩

theorem shift_bound (j : Fin 216) (h : isInterior (xyzRow j) = true) :
    ((3/2) * s ≤ (shift (xyzRow j)).1 ∧ (3/2) * s ≤ (shift (xyzRow j)).2.1 ∧
     (3/2) * s ≤ (shift (xyzRow j)).2.2) ∧
    (0 < (shift (xyzRow j)).1 ∧ 0 < (shift (xyzRow j)).2.1 ∧
     0 < (shift (xyzRow j)).2.2) := by
  simp only [isInterior, xyzRow, Bool.and_eq_true, decide_eq_true_eq] at h
  obtain ⟨⟨h1, h2⟩, h3⟩ := h
  have b1 := coord_lower _ h1
  have b2 := coord_lower _ h2
  have b3 := coord_lower _ h3
  have hs := s_pos
  simp only [shift, xyzRow]
  exact ⟨⟨by linarith, by linarith, by linarith⟩, by linarith, by linarith, by linarith⟩

theorem coord_mem_axisValues (i : ℕ) (h : i < 6) : s * (i : ℚ) ∈ axisValues := by
  interval_cases i <;> simp [axisValues, mul_comm]

/-- C10: the grid has exactly `6^3 = 216` rows, every coordinate of every row is
one of `{0, s, 2s, 3s, 4s, 5s}`, and every particle position passed to a
`set_data` call with geometry `"ParticleSet"` has all three coordinates at least
`1.5 * s`, hence strictly positive. -/
theorem C10_grid_and_particles (rnd : Fin 216 → ℚ) :
    xyzRows.length = 216 ∧
    (∀ p ∈ xyzRows, p.1 ∈ axisValues ∧ p.2.1 ∈ axisValues ∧ p.2.2 ∈ axisValues) ∧
    (∀ c ∈ setDataCalls (script rnd), argStr c "geom" = some "ParticleSet" →
      ∀ ps, argRows c "pos" = some ps → ∀ p ∈ ps,
        ((3/2) * s ≤ p.1 ∧ (3/2) * s ≤ p.2.1 ∧ (3/2) * s ≤ p.2.2) ∧
        (0 < p.1 ∧ 0 < p.2.1 ∧ 0 < p.2.2)) := by
  refine ⟨rfl, ?_, ?_⟩
  · intro p hp
    have hp2 : p ∈ (List.finRange 216).map xyzRow := hp
    obtain ⟨k, _, rfl⟩ := List.mem_map.1 hp2
    have hk := k.isLt
    refine ⟨?_, ?_, ?_⟩
    · exact coord_mem_axisValues ((k : ℕ) / 36) (by omega)
    · exact coord_mem_axisValues (((k : ℕ) / 6) % 6) (by omega)
    · exact coord_mem_axisValues ((k : ℕ) % 6) (by omega)
  intro c hc hgeom ps hps p hp
  rw [setDataCalls_script] at hc
  simp only [List.mem_cons, List.not_mem_nil, or_false] at hc
  rcases hc with rfl | rfl | rfl | rfl
  · have hps2 : some (particles_g_pos rnd) = some ps := hps
    obtain rfl := (Option.some.inj hps2).symm
    have hp2 : p ∈ ((idx_p_glass rnd).map xyzRow).map shift := hp
    obtain ⟨q, hq, rfl⟩ := List.mem_map.1 hp2
    obtain ⟨j, hj, rfl⟩ := List.mem_map.1 hq
    have hj2 : j ∈ (List.finRange 216).filter
        (fun k => isInterior (xyzRow k) && decide (rnd k < 2/5)) := hj
    have hj3 := (List.mem_filter.1 hj2).2
    rw [Bool.and_eq_true] at hj3
    exact shift_bound j hj3.1
  · have hps2 : some (particles_p_pos rnd) = some ps := hps
    obtain rfl := (Option.some.inj hps2).symm
    have hp2 : p ∈ ((idx_p_plastic rnd).map xyzRow).map shift := hp
    obtain ⟨q, hq, rfl⟩ := List.mem_map.1 hp2
    obtain ⟨j, hj, rfl⟩ := List.mem_map.1 hq
    have hj2 : j ∈ (List.finRange 216).filter
        (fun k => isInterior (xyzRow k) && decide (9/10 < rnd k)) := hj
    have hj3 := (List.mem_filter.1 hj2).2
    rw [Bool.and_eq_true] at hj3
    exact shift_bound j hj3.1
  · have hg : (some "Parallelepipeds" : Option String) = some "ParticleSet" := hgeom
    exact absurd (Option.some.inj hg) (by decide)
  · have hg : (some "Parallelepipeds" : Option String) = some "ParticleSet" := hgeom
    exact absurd (Option.some.inj hg) (by decide)

/-- Witness for C10: under the random vector with all samples 0.2, the shifted
interior row 43 is among the glass particle positions and its first coordinate
is at least `1.5 * s`. -/
theorem C10_witness :
    shift (xyzRow 43) ∈ particles_g_pos rnd1 ∧ (3/2) * s ≤ (shift (xyzRow 43)).1 := by
  have hmem : xyzRow 43 ∈ xyz_p_glass rnd1 := by
    rw [mem_xyz_p_glass]
    refine ⟨by norm_num [isInterior, xyzRow, s_eq]; decide, by norm_num [rnd1]⟩
  have hp : shift (xyzRow 43) ∈ (xyz_p_glass rnd1).map shift :=
    List.mem_map_of_mem shift hmem
  have hp2 : shift (xyzRow 43) ∈ particles_g_pos rnd1 := hp
  refine ⟨hp2, ?_⟩
  exact ((C10_grid_and_particles rnd1).2.2 (particlesGCall rnd1)
      (by rw [setDataCalls_script]; exact List.mem_cons_self _ _) rfl
      (particles_g_pos rnd1) rfl (shift (xyzRow 43)) hp2).1.1

end MaterialsGlassColors
